import Mathlib

/-!
Shallow embedding of `src/vcf_venn_plotter.py` (VCF Venn Diagram Plotter).

The table produced by `pd.read_csv(tsv_file, sep='\t')` is modelled by its
header (a list of column names) together with its rows (each row a list of
integer cell values, positionally aligned with the header).  `df[name]`
column access becomes a positional lookup of `name` in the header.  The
`read_tsv_and_count_variants` / `create_venn_diagram` / `main` pipeline is
embedded as pure functions; the outcome of `pd.read_csv` (which touches the
file system) is passed in as an `Except` value, and the calls into
matplotlib-venn are reified as a `RendererRequest` value recording exactly
the arguments the script passes to `venn2` / `venn3`.
-/

namespace VcfVenn

/-- The fixed recognized caller-column vocabulary, in source order
(`possible_callers` in `read_tsv_and_count_variants`). -/
def possible_callers : List String :=
  ["Bcftools", "FreeBayes", "GATK", "bcftools", "freebayes", "gatk"]

/-- The `for caller in possible_callers: if caller in df.columns: append`
loop: all recognized names present in the header, in fixed-list order. -/
def selectCallers (columns : List String) : List String :=
  possible_callers.filter (fun c => columns.contains c)

/-- `df[name]` cell access for one row: positional lookup of the column
name in the header. -/
def getCell (columns : List String) (row : List Int) (name : String) : Option Int :=
  (columns.indexOf? name).bind (fun i => row[i]?)

/-- The pandas elementwise comparison `df[name] == v` on one row. -/
def cellEq (columns : List String) (row : List Int) (name : String) (v : Int) : Bool :=
  getCell columns row name == some v

/-- Row predicate `(df[c1] == a) & (df[c2] == b)` used by the two-caller
branch of the counting code. -/
def p2 (columns : List String) (c1 c2 : String) (a b : Int) : List Int → Bool :=
  fun r => cellEq columns r c1 a && cellEq columns r c2 b

/-- Row predicate `(df[c1] == a) & (df[c2] == b) & (df[c3] == c)` used by
the three-caller branch of the counting code. -/
def p3 (columns : List String) (c1 c2 c3 : String) (a b c : Int) : List Int → Bool :=
  fun r => cellEq columns r c1 a && cellEq columns r c2 b && cellEq columns r c3 c

/-- The two-caller `counts` dict, in insertion order:
`counts['10'] = len(df[(df[caller1] == 1) & (df[caller2] == 0)])` etc. -/
def counts2 (columns : List String) (rows : List (List Int)) (c1 c2 : String) :
    List (String × Nat) :=
  [("10", (rows.filter (p2 columns c1 c2 1 0)).length),
   ("01", (rows.filter (p2 columns c1 c2 0 1)).length),
   ("11", (rows.filter (p2 columns c1 c2 1 1)).length)]

/-- The three-caller `counts` dict, in insertion order (`'100'`, `'010'`,
`'001'`, `'110'`, `'101'`, `'011'`, `'111'`). -/
def counts3 (columns : List String) (rows : List (List Int)) (c1 c2 c3 : String) :
    List (String × Nat) :=
  [("100", (rows.filter (p3 columns c1 c2 c3 1 0 0)).length),
   ("010", (rows.filter (p3 columns c1 c2 c3 0 1 0)).length),
   ("001", (rows.filter (p3 columns c1 c2 c3 0 0 1)).length),
   ("110", (rows.filter (p3 columns c1 c2 c3 1 1 0)).length),
   ("101", (rows.filter (p3 columns c1 c2 c3 1 0 1)).length),
   ("011", (rows.filter (p3 columns c1 c2 c3 0 1 1)).length),
   ("111", (rows.filter (p3 columns c1 c2 c3 1 1 1)).length)]

/-- The dict returned by `read_tsv_and_count_variants`. -/
structure CounterOutput where
  caller_names : List String
  counts : List (String × Nat)
  num_callers : Nat
deriving DecidableEq

instance {ε α : Type} [DecidableEq ε] [DecidableEq α] : DecidableEq (Except ε α) := fun x y =>
  match x, y with
  | Except.ok a, Except.ok b =>
    if h : a = b then Decidable.isTrue (by rw [h]) else Decidable.isFalse (by simp [h])
  | Except.error a, Except.error b =>
    if h : a = b then Decidable.isTrue (by rw [h]) else Decidable.isFalse (by simp [h])
  | Except.ok _, Except.error _ => Decidable.isFalse (by simp)
  | Except.error _, Except.ok _ => Decidable.isFalse (by simp)

/-- `read_tsv_and_count_variants`, after a successful `pd.read_csv`: select
the recognized caller columns, abort (`sys.exit(1)`, carrying the full
column list printed in the diagnostic) when fewer than 2 are found,
otherwise build the counts dict (empty when the number of selected columns
is neither 2 nor 3, since neither branch of the `if`/`elif` runs). -/
def read_tsv_and_count_variants (columns : List String) (rows : List (List Int)) :
    Except (List String) CounterOutput :=
  let caller_columns := selectCallers columns
  if caller_columns.length < 2 then
    Except.error columns
  else
    let counts :=
      if caller_columns.length = 2 then
        counts2 columns rows (caller_columns.getD 0 "") (caller_columns.getD 1 "")
      else if caller_columns.length = 3 then
        counts3 columns rows (caller_columns.getD 0 "") (caller_columns.getD 1 "")
          (caller_columns.getD 2 "")
      else []
    Except.ok
      { caller_names := caller_columns
        counts := counts
        num_callers := caller_columns.length }

/-- The stderr text of the `except` branch around `pd.read_csv`:
`Error reading TSV file: ` followed by the exception text. -/
def readErrorMessage (e : String) : String :=
  "Error reading TSV file: " ++ e

/-- Comma-separated rendering of the column list, modelling the
`df.columns.tolist()` enumeration inside the diagnostic f-string. -/
def availableColumnsStr : List String → String
  | [] => ""
  | [c] => c
  | c :: rest => c ++ ", " ++ availableColumnsStr rest

/-- The stderr text of the insufficient-columns branch: the fixed line
`Error: Could not find at least 2 caller columns in TSV file` followed by
`Available columns: ` with the full column list interpolated. -/
def insufficientColumnsMessage (cols : List String) : String :=
  "Error: Could not find at least 2 caller columns in TSV file" ++ "\n" ++
    "Available columns: [" ++ availableColumnsStr cols ++ "]"

/-- Dict lookup `counts[k]` on the association-list model (total with
default 0; every reachable lookup hits a present key). -/
def lookupCount (counts : List (String × Nat)) (k : String) : Nat :=
  match counts.find? (fun p => p.1 == k) with
  | some p => p.2
  | none => 0

/-- The `normalize_to` computation of `create_venn_diagram` (source lines
253-263): for three callers, `'region'` when the largest of the seven
bucket counts exceeds 10 times the smallest non-zero one, else `None`. -/
def computeNormalizeTo (num_callers : Nat) (counts : List (String × Nat)) :
    Option String :=
  if num_callers = 3 then
    let all_counts := [lookupCount counts "100", lookupCount counts "010",
      lookupCount counts "001", lookupCount counts "110", lookupCount counts "101",
      lookupCount counts "011", lookupCount counts "111"]
    let max_count := (all_counts.max?).getD 1
    let min_nonzero := ((all_counts.filter (fun c => 0 < c)).min?).getD 1
    if max_count > 10 * min_nonzero then some "region" else none
  else
    none

/-- The call the script makes into matplotlib-venn: which of `venn2` /
`venn3` is invoked, with which `subsets` tuple and which `normalize_to`
argument (`Option.none` when the keyword is absent or `None`). -/
inductive RendererRequest where
  | venn2 (subsets : Nat × Nat × Nat) (normalize_to : Option String)
  | venn3 (subsets : Nat × Nat × Nat × Nat × Nat × Nat × Nat)
      (normalize_to : Option String)
  | noCall
deriving DecidableEq

/-- The renderer-facing behaviour of `create_venn_diagram`: the `venn2`
call passes the computed `normalize_to`; the `venn3` call (source lines
308-310) passes no `normalize_to` keyword at all, so the computed hint
never reaches the three-way renderer. -/
def create_venn_diagram (data : CounterOutput) : RendererRequest :=
  let counts := data.counts
  let normalize_to := computeNormalizeTo data.num_callers counts
  if data.num_callers = 2 then
    RendererRequest.venn2
      (lookupCount counts "10", lookupCount counts "01", lookupCount counts "11")
      normalize_to
  else if data.num_callers = 3 then
    RendererRequest.venn3
      (lookupCount counts "100", lookupCount counts "010", lookupCount counts "110",
       lookupCount counts "001", lookupCount counts "101", lookupCount counts "011",
       lookupCount counts "111")
      none
  else
    RendererRequest.noCall

/-- Observable outcome of a run of `main` on a given `pd.read_csv`
outcome: either `sys.exit` with a code and a stderr message, or the
counter output together with the renderer call made from it. -/
inductive RunOutcome where
  | exited (code : Nat) (stderrMsg : String)
  | rendered (data : CounterOutput) (request : RendererRequest)
deriving DecidableEq

/-- The `main` pipeline after argument parsing: read (outcome supplied),
count, render. -/
def runPipeline (readResult : Except String (List String × List (List Int))) :
    RunOutcome :=
  match readResult with
  | Except.error e => RunOutcome.exited 1 (readErrorMessage e)
  | Except.ok (cols, rows) =>
    match read_tsv_and_count_variants cols rows with
    | Except.error foundCols =>
        RunOutcome.exited 1 (insufficientColumnsMessage foundCols)
    | Except.ok data => RunOutcome.rendered data (create_venn_diagram data)

/-! ### Vocabulary for the stated properties -/

/-- Sum of all bucket counts in a counts dict. -/
def bucketSum (counts : List (String × Nat)) : Nat :=
  (counts.map Prod.snd).sum

/-- A row whose every selected caller flag equals 0. -/
def isAllZeroRow (columns : List String) (r : List Int) : Bool :=
  (selectCallers columns).all (fun c => cellEq columns r c 0)

/-- Number of rows whose selected caller flags are all 0. -/
def allZeroCount (columns : List String) (rows : List (List Int)) : Nat :=
  (rows.filter (isAllZeroRow columns)).length

/-- Every selected caller flag of every row is literally 0 or 1. -/
def validRows (columns : List String) (rows : List (List Int)) : Bool :=
  rows.all (fun r =>
    (selectCallers columns).all (fun c => cellEq columns r c 0 || cellEq columns r c 1))

/-- The two-caller bucket predicates, in counts2 key order. -/
def bucketPreds2 (columns : List String) (c1 c2 : String) : List (List Int → Bool) :=
  [p2 columns c1 c2 1 0, p2 columns c1 c2 0 1, p2 columns c1 c2 1 1]

/-- The three-caller bucket predicates, in counts3 key order. -/
def bucketPreds3 (columns : List String) (c1 c2 c3 : String) : List (List Int → Bool) :=
  [p3 columns c1 c2 c3 1 0 0, p3 columns c1 c2 c3 0 1 0, p3 columns c1 c2 c3 0 0 1,
   p3 columns c1 c2 c3 1 1 0, p3 columns c1 c2 c3 1 0 1, p3 columns c1 c2 c3 0 1 1,
   p3 columns c1 c2 c3 1 1 1]

/-- How many combination buckets a row falls into (0 buckets exist unless
exactly 2 or 3 caller columns are selected). -/
def bucketsHit (columns : List String) (r : List Int) : Nat :=
  match selectCallers columns with
  | [c1, c2] => ((bucketPreds2 columns c1 c2).filter (fun p => p r)).length
  | [c1, c2, c3] => ((bucketPreds3 columns c1 c2 c3).filter (fun p => p r)).length
  | _ => 0

/-- Substring test (used to state what a diagnostic message mentions). -/
def containsSubstr (s sub : String) : Bool :=
  decide (sub.toList <:+: s.toList)

/-- The all-zero three-caller counts dict, as built by `counts3` on a
table whose rows carry no flags. -/
def zeroCounts3 : List (String × Nat) :=
  [("100", 0), ("010", 0), ("001", 0), ("110", 0), ("101", 0), ("011", 0), ("111", 0)]

/-! ### Helper lemmas -/

lemma cellEq_zero_one_false (columns : List String) (r : List Int) (c : String) :
    ¬(cellEq columns r c 0 = true ∧ cellEq columns r c 1 = true) := by
  rintro ⟨h0, h1⟩
  simp only [cellEq, beq_iff_eq] at h0 h1
  rw [h0] at h1
  exact absurd (Option.some.inj h1) (by decide)

lemma cell_cases (columns : List String) (r : List Int) (c : String)
    (h : (cellEq columns r c 0 || cellEq columns r c 1) = true) :
    (cellEq columns r c 0 = true ∧ cellEq columns r c 1 = false) ∨
      (cellEq columns r c 0 = false ∧ cellEq columns r c 1 = true) := by
  rcases h0 : cellEq columns r c 0 <;> rcases h1 : cellEq columns r c 1
  · rw [h0, h1] at h; exact absurd h (by decide)
  · exact Or.inr ⟨rfl, rfl⟩
  · exact Or.inl ⟨rfl, rfl⟩
  · exact absurd ⟨h0, h1⟩ (cellEq_zero_one_false columns r c)

lemma cellEq_one_false (columns : List String) (r : List Int) (c : String)
    (h : cellEq columns r c 0 = true) : cellEq columns r c 1 = false := by
  cases h1 : cellEq columns r c 1
  · rfl
  · exact absurd ⟨h, h1⟩ (cellEq_zero_one_false columns r c)

lemma partition_sum2 (columns : List String) (rows : List (List Int)) (c1 c2 : String)
    (hv : ∀ r ∈ rows, (cellEq columns r c1 0 || cellEq columns r c1 1) = true ∧
      (cellEq columns r c2 0 || cellEq columns r c2 1) = true) :
    (rows.filter (p2 columns c1 c2 1 0)).length + (rows.filter (p2 columns c1 c2 0 1)).length +
      (rows.filter (p2 columns c1 c2 1 1)).length + (rows.filter (p2 columns c1 c2 0 0)).length =
      rows.length := by
  induction rows with
  | nil => rfl
  | cons r rs ih =>
    obtain ⟨h1, h2⟩ := hv r (List.mem_cons_self r rs)
    have IH := ih (fun x hx => hv x (List.mem_cons_of_mem r hx))
    rcases cell_cases columns r c1 h1 with ⟨a0, a1⟩ | ⟨a0, a1⟩ <;>
      rcases cell_cases columns r c2 h2 with ⟨b0, b1⟩ | ⟨b0, b1⟩ <;>
      (try simp [List.filter_cons, p2, a0, a1, b0, b1]) <;> omega

lemma partition_sum3 (columns : List String) (rows : List (List Int)) (c1 c2 c3 : String)
    (hv : ∀ r ∈ rows, (cellEq columns r c1 0 || cellEq columns r c1 1) = true ∧
      (cellEq columns r c2 0 || cellEq columns r c2 1) = true ∧
      (cellEq columns r c3 0 || cellEq columns r c3 1) = true) :
    (rows.filter (p3 columns c1 c2 c3 1 0 0)).length +
      (rows.filter (p3 columns c1 c2 c3 0 1 0)).length +
      (rows.filter (p3 columns c1 c2 c3 0 0 1)).length +
      (rows.filter (p3 columns c1 c2 c3 1 1 0)).length +
      (rows.filter (p3 columns c1 c2 c3 1 0 1)).length +
      (rows.filter (p3 columns c1 c2 c3 0 1 1)).length +
      (rows.filter (p3 columns c1 c2 c3 1 1 1)).length +
      (rows.filter (p3 columns c1 c2 c3 0 0 0)).length = rows.length := by
  induction rows with
  | nil => rfl
  | cons r rs ih =>
    obtain ⟨h1, h2, h3⟩ := hv r (List.mem_cons_self r rs)
    have IH := ih (fun x hx => hv x (List.mem_cons_of_mem r hx))
    rcases cell_cases columns r c1 h1 with ⟨a0, a1⟩ | ⟨a0, a1⟩ <;>
      rcases cell_cases columns r c2 h2 with ⟨b0, b1⟩ | ⟨b0, b1⟩ <;>
      rcases cell_cases columns r c3 h3 with ⟨d0, d1⟩ | ⟨d0, d1⟩ <;>
      (try simp [List.filter_cons, p3, a0, a1, b0, b1, d0, d1]) <;> omega

lemma read_tsv_two (columns : List String) (rows : List (List Int)) (c1 c2 : String)
    (hsel : selectCallers columns = [c1, c2]) :
    read_tsv_and_count_variants columns rows =
      Except.ok ⟨[c1, c2], counts2 columns rows c1 c2, 2⟩ := by
  simp [read_tsv_and_count_variants, hsel]

lemma read_tsv_three (columns : List String) (rows : List (List Int)) (c1 c2 c3 : String)
    (hsel : selectCallers columns = [c1, c2, c3]) :
    read_tsv_and_count_variants columns rows =
      Except.ok ⟨[c1, c2, c3], counts3 columns rows c1 c2 c3, 3⟩ := by
  simp [read_tsv_and_count_variants, hsel]

lemma read_tsv_many (columns : List String) (rows : List (List Int))
    (h : 3 < (selectCallers columns).length) :
    read_tsv_and_count_variants columns rows =
      Except.ok ⟨selectCallers columns, [], (selectCallers columns).length⟩ := by
  have hlen : ¬((selectCallers columns).length < 2) := by omega
  have hl2 : ¬((selectCallers columns).length = 2) := by omega
  have hl3 : ¬((selectCallers columns).length = 3) := by omega
  simp [read_tsv_and_count_variants, hlen, hl2, hl3]

lemma read_tsv_insufficient (columns : List String) (rows : List (List Int))
    (h : (selectCallers columns).length < 2) :
    read_tsv_and_count_variants columns rows = Except.error columns := by
  simp [read_tsv_and_count_variants, h]

lemma allZeroCount_two (columns : List String) (rows : List (List Int)) (c1 c2 : String)
    (hsel : selectCallers columns = [c1, c2]) :
    allZeroCount columns rows = (rows.filter (p2 columns c1 c2 0 0)).length := by
  unfold allZeroCount
  congr 1
  apply List.filter_congr
  intro r _
  simp [isAllZeroRow, hsel, p2]

lemma allZeroCount_three (columns : List String) (rows : List (List Int)) (c1 c2 c3 : String)
    (hsel : selectCallers columns = [c1, c2, c3]) :
    allZeroCount columns rows = (rows.filter (p3 columns c1 c2 c3 0 0 0)).length := by
  unfold allZeroCount
  congr 1
  apply List.filter_congr
  intro r _
  simp [isAllZeroRow, hsel, p3, Bool.and_assoc]

lemma validRows_mem (columns : List String) (rows : List (List Int))
    (hval : validRows columns rows = true) (r : List Int) (hr : r ∈ rows) (c : String)
    (hc : c ∈ selectCallers columns) :
    (cellEq columns r c 0 || cellEq columns r c 1) = true := by
  have h := List.all_eq_true.mp hval r hr
  exact List.all_eq_true.mp h c hc

lemma bucketsHit_two (columns : List String) (r : List Int) (c1 c2 : String)
    (hsel : selectCallers columns = [c1, c2])
    (h1 : (cellEq columns r c1 0 || cellEq columns r c1 1) = true)
    (h2 : (cellEq columns r c2 0 || cellEq columns r c2 1) = true) :
    bucketsHit columns r = if isAllZeroRow columns r then 0 else 1 := by
  rcases cell_cases columns r c1 h1 with ⟨a0, a1⟩ | ⟨a0, a1⟩ <;>
    rcases cell_cases columns r c2 h2 with ⟨b0, b1⟩ | ⟨b0, b1⟩ <;>
    simp [bucketsHit, hsel, bucketPreds2, p2, isAllZeroRow, a0, a1, b0, b1, List.filter_cons]

lemma bucketsHit_three (columns : List String) (r : List Int) (c1 c2 c3 : String)
    (hsel : selectCallers columns = [c1, c2, c3])
    (h1 : (cellEq columns r c1 0 || cellEq columns r c1 1) = true)
    (h2 : (cellEq columns r c2 0 || cellEq columns r c2 1) = true)
    (h3 : (cellEq columns r c3 0 || cellEq columns r c3 1) = true) :
    bucketsHit columns r = if isAllZeroRow columns r then 0 else 1 := by
  rcases cell_cases columns r c1 h1 with ⟨a0, a1⟩ | ⟨a0, a1⟩ <;>
    rcases cell_cases columns r c2 h2 with ⟨b0, b1⟩ | ⟨b0, b1⟩ <;>
    rcases cell_cases columns r c3 h3 with ⟨d0, d1⟩ | ⟨d0, d1⟩ <;>
    simp [bucketsHit, hsel, bucketPreds3, p3, isAllZeroRow, a0, a1, b0, b1, d0, d1,
      List.filter_cons]

lemma infix_of_mem_availableColumnsStr (c : String) (cols : List String) (h : c ∈ cols) :
    c.toList <:+: (availableColumnsStr cols).toList := by
  induction cols with
  | nil => simp at h
  | cons d rest ih =>
    rcases List.mem_cons.mp h with rfl | hmem
    · cases rest with
      | nil => exact List.infix_rfl
      | cons e rest' =>
        show c.toList <:+: (c ++ ", " ++ availableColumnsStr (e :: rest')).toList
        refine ⟨[], (", " ++ availableColumnsStr (e :: rest')).toList, ?_⟩
        show [] ++ c.toList ++ _ = _
        simp [String.toList, String.data_append]
    · cases rest with
      | nil => simp at hmem
      | cons e rest' =>
        have hin := ih hmem
        show c.toList <:+: (d ++ ", " ++ availableColumnsStr (e :: rest')).toList
        obtain ⟨s, t, hst⟩ := hin
        have hst' : s ++ c.toList ++ t = (availableColumnsStr (e :: rest')).data := hst
        refine ⟨(d ++ ", ").toList ++ s, t, ?_⟩
        show (d ++ ", ").toList ++ s ++ c.toList ++ t = _
        simp only [String.toList, String.data_append, ← hst']
        simp [List.append_assoc]

lemma infix_of_mem_message (c : String) (cols : List String) (h : c ∈ cols) :
    c.toList <:+: (insufficientColumnsMessage cols).toList := by
  have h1 := infix_of_mem_availableColumnsStr c cols h
  have h2 : (availableColumnsStr cols).toList <:+: (insufficientColumnsMessage cols).toList := by
    show _ <:+: (_ ++ "\n" ++ _ ++ availableColumnsStr cols ++ "]").toList
    refine ⟨("Error: Could not find at least 2 caller columns in TSV file" ++ "\n" ++
      "Available columns: [").toList, "]".toList, ?_⟩
    simp [String.toList, String.data_append]
  exact h1.trans h2

lemma counts3_all_zero (columns : List String) (rows : List (List Int)) (c1 c2 c3 : String)
    (hsel : selectCallers columns = [c1, c2, c3])
    (hz : rows.all (isAllZeroRow columns) = true) :
    counts3 columns rows c1 c2 c3 = zeroCounts3 := by
  have hz' : ∀ r ∈ rows, cellEq columns r c1 0 = true ∧ cellEq columns r c2 0 = true ∧
      cellEq columns r c3 0 = true := by
    intro r hr
    have h := List.all_eq_true.mp hz r hr
    simp only [isAllZeroRow, hsel] at h
    simpa using h
  have key : ∀ a b c : Int, (a = 1 ∨ b = 1 ∨ c = 1) →
      (rows.filter (p3 columns c1 c2 c3 a b c)).length = 0 := by
    intro a b c habc
    rw [List.length_eq_zero, List.filter_eq_nil_iff]
    intro r hr
    obtain ⟨z1, z2, z3⟩ := hz' r hr
    rcases habc with rfl | rfl | rfl <;>
      simp [p3, cellEq_one_false columns r c1 z1, cellEq_one_false columns r c2 z2,
        cellEq_one_false columns r c3 z3]
  simp only [counts3, zeroCounts3, key 1 0 0 (Or.inl rfl), key 0 1 0 (Or.inr (Or.inl rfl)),
    key 0 0 1 (Or.inr (Or.inr rfl)), key 1 1 0 (Or.inl rfl), key 1 0 1 (Or.inl rfl),
    key 0 1 1 (Or.inr (Or.inl rfl)), key 1 1 1 (Or.inl rfl)]

/-! ### Claim theorems -/

/-- C1 (counterexample to the claim as stated): a table whose header holds
four recognized caller columns and a single row with a flag set, all flag
values in constraint 0/1, yet the counts dict is empty: the bucket-count sum
plus the all-zero-row count is 0 while the table has 1 row, and the row
falls into no bucket although it has a flag set. -/
theorem C1_counterexample :
    validRows ["Bcftools", "FreeBayes", "GATK", "bcftools"] [[1, 0, 0, 0]] = true ∧
    read_tsv_and_count_variants ["Bcftools", "FreeBayes", "GATK", "bcftools"] [[1, 0, 0, 0]] =
      Except.ok ⟨["Bcftools", "FreeBayes", "GATK", "bcftools"], [], 4⟩ ∧
    bucketSum [] +
      allZeroCount ["Bcftools", "FreeBayes", "GATK", "bcftools"] [[1, 0, 0, 0]] = 0 ∧
    ([[1, 0, 0, 0]] : List (List Int)).length = 1 ∧
    bucketsHit ["Bcftools", "FreeBayes", "GATK", "bcftools"] [1, 0, 0, 0] = 0 := by decide

/-- C1 (amended: restricted to tables with exactly 2 or 3 selected caller
columns): when every selected caller flag is 0 or 1, the counting operation
partitions the rows: the sum of all bucket counts plus the number of
all-zero-flag rows equals the total row count, and every row falls into
exactly one bucket if it has a flag set, into none if all its flags are 0. -/
theorem C1_partition (columns : List String) (rows : List (List Int)) (out : CounterOutput)
    (hval : validRows columns rows = true)
    (hn : (selectCallers columns).length = 2 ∨ (selectCallers columns).length = 3)
    (hok : read_tsv_and_count_variants columns rows = Except.ok out) :
    bucketSum out.counts + allZeroCount columns rows = rows.length ∧
      (rows.all (fun r =>
        bucketsHit columns r == if isAllZeroRow columns r then 0 else 1)) = true := by
  rcases hn with hn | hn
  · obtain ⟨c1, c2, hsel⟩ := List.length_eq_two.mp hn
    rw [read_tsv_two columns rows c1 c2 hsel] at hok
    obtain rfl : out = ⟨[c1, c2], counts2 columns rows c1 c2, 2⟩ := by
      cases hok; rfl
    have hv : ∀ r ∈ rows, (cellEq columns r c1 0 || cellEq columns r c1 1) = true ∧
        (cellEq columns r c2 0 || cellEq columns r c2 1) = true := by
      intro r hr
      exact ⟨validRows_mem columns rows hval r hr c1 (by simp [hsel]),
        validRows_mem columns rows hval r hr c2 (by simp [hsel])⟩
    constructor
    · have hsum := partition_sum2 columns rows c1 c2 hv
      rw [allZeroCount_two columns rows c1 c2 hsel]
      simp only [bucketSum, counts2, List.map_cons, List.map_nil, List.sum_cons, List.sum_nil]
      omega
    · refine List.all_eq_true.mpr (fun r hr => ?_)
      have := bucketsHit_two columns r c1 c2 hsel (hv r hr).1 (hv r hr).2
      simp [this]
  · obtain ⟨c1, c2, c3, hsel⟩ := List.length_eq_three.mp hn
    rw [read_tsv_three columns rows c1 c2 c3 hsel] at hok
    obtain rfl : out = ⟨[c1, c2, c3], counts3 columns rows c1 c2 c3, 3⟩ := by
      cases hok; rfl
    have hv : ∀ r ∈ rows, (cellEq columns r c1 0 || cellEq columns r c1 1) = true ∧
        (cellEq columns r c2 0 || cellEq columns r c2 1) = true ∧
        (cellEq columns r c3 0 || cellEq columns r c3 1) = true := by
      intro r hr
      exact ⟨validRows_mem columns rows hval r hr c1 (by simp [hsel]),
        validRows_mem columns rows hval r hr c2 (by simp [hsel]),
        validRows_mem columns rows hval r hr c3 (by simp [hsel])⟩
    constructor
    · have hsum := partition_sum3 columns rows c1 c2 c3 hv
      rw [allZeroCount_three columns rows c1 c2 c3 hsel]
      simp only [bucketSum, counts3, List.map_cons, List.map_nil, List.sum_cons, List.sum_nil]
      omega
    · refine List.all_eq_true.mpr (fun r hr => ?_)
      have := bucketsHit_three columns r c1 c2 c3 hsel (hv r hr).1 (hv r hr).2.1 (hv r hr).2.2
      simp [this]

/-- C1 witness: the amended partition property evaluated on the concrete
two-caller five-row table of scenario A. -/
theorem C1_partition_witness :
    bucketSum (CounterOutput.mk ["Bcftools", "FreeBayes"]
        [("10", 2), ("01", 1), ("11", 1)] 2).counts +
      allZeroCount ["Bcftools", "FreeBayes"] [[1, 0], [0, 1], [1, 1], [0, 0], [1, 0]] =
      ([[1, 0], [0, 1], [1, 1], [0, 0], [1, 0]] : List (List Int)).length ∧
    (([[1, 0], [0, 1], [1, 1], [0, 0], [1, 0]] : List (List Int)).all (fun r =>
      bucketsHit ["Bcftools", "FreeBayes"] r ==
        if isAllZeroRow ["Bcftools", "FreeBayes"] r then 0 else 1)) = true :=
  C1_partition ["Bcftools", "FreeBayes"] [[1, 0], [0, 1], [1, 1], [0, 0], [1, 0]]
    (CounterOutput.mk ["Bcftools", "FreeBayes"] [("10", 2), ("01", 1), ("11", 1)] 2)
    (by decide) (by decide) (by decide)

/-- C2: on the concrete table with columns Bcftools, FreeBayes and rows
(1,0),(0,1),(1,1),(0,0),(1,0), the counter returns counts 10 ↦ 2, 01 ↦ 1,
11 ↦ 1; 4 of the 5 rows are classified and the single (0,0) row excluded. -/
theorem C2_scenarioA :
    read_tsv_and_count_variants ["Bcftools", "FreeBayes"]
        [[1, 0], [0, 1], [1, 1], [0, 0], [1, 0]] =
      Except.ok ⟨["Bcftools", "FreeBayes"], [("10", 2), ("01", 1), ("11", 1)], 2⟩ ∧
    bucketSum [("10", 2), ("01", 1), ("11", 1)] = 4 ∧
    allZeroCount ["Bcftools", "FreeBayes"] [[1, 0], [0, 1], [1, 1], [0, 0], [1, 0]] = 1 ∧
    ([[1, 0], [0, 1], [1, 1], [0, 0], [1, 0]] : List (List Int)).length = 5 := by decide

/-- C3: the selected caller names are exactly the header columns matching
the fixed recognized list (case-sensitively), the output order is always
the fixed list's order (a sublist of it), and the two concrete headers show
case-sensitivity (BCFTOOLS, Gatk rejected; both casings kept as distinct
entries) and fixed-list order rather than header order. -/
theorem C3_selection :
    (∀ header c, c ∈ selectCallers header ↔
      c ∈ possible_callers ∧ header.contains c = true) ∧
    (∀ header : List String, List.Sublist (selectCallers header) possible_callers) ∧
    selectCallers ["BCFTOOLS", "Gatk", "bcftools", "FreeBayes"] =
      ["FreeBayes", "bcftools"] ∧
    selectCallers ["gatk", "CHROM", "GATK"] = ["GATK", "gatk"] := by
  refine ⟨fun header c => ?_, fun header => List.filter_sublist _, by decide, by decide⟩
  simp [selectCallers, List.mem_filter]

/-- C4 (counterexample to the claim as stated): a header with four
recognized caller columns yields a caller sequence of length 4, not 3, and
an empty counts dict instead of the 7 patterns over the first three. -/
theorem C4_counterexample :
    selectCallers ["Bcftools", "FreeBayes", "GATK", "bcftools"] =
      ["Bcftools", "FreeBayes", "GATK", "bcftools"] ∧
    read_tsv_and_count_variants ["Bcftools", "FreeBayes", "GATK", "bcftools"]
        [[1, 0, 0, 0]] =
      Except.ok ⟨["Bcftools", "FreeBayes", "GATK", "bcftools"], [], 4⟩ ∧
    (selectCallers ["Bcftools", "FreeBayes", "GATK", "bcftools"]).length ≠ 3 := by decide

/-- C4 (amended): with more than 3 recognized columns, the counter keeps
every match (the caller sequence is the whole selected list, of length
greater than 3) and computes no combination counts at all (the counts dict
is empty); no first-3 truncation happens. -/
theorem C4_more_than_three (columns : List String) (rows : List (List Int))
    (out : CounterOutput) (h : 3 < (selectCallers columns).length)
    (hok : read_tsv_and_count_variants columns rows = Except.ok out) :
    out.caller_names = selectCallers columns ∧ out.counts = [] ∧
      out.num_callers = (selectCallers columns).length ∧ 3 < out.num_callers := by
  rw [read_tsv_many columns rows h] at hok
  cases hok
  exact ⟨rfl, rfl, rfl, h⟩

/-- C4 witness: the amended behaviour on the four-recognized-column header. -/
theorem C4_more_than_three_witness :
    (CounterOutput.mk ["Bcftools", "FreeBayes", "GATK", "bcftools"] [] 4).caller_names =
      selectCallers ["Bcftools", "FreeBayes", "GATK", "bcftools"] ∧
    (CounterOutput.mk ["Bcftools", "FreeBayes", "GATK", "bcftools"] [] 4).counts = [] ∧
    (CounterOutput.mk ["Bcftools", "FreeBayes", "GATK", "bcftools"] [] 4).num_callers =
      (selectCallers ["Bcftools", "FreeBayes", "GATK", "bcftools"]).length ∧
    3 < (CounterOutput.mk ["Bcftools", "FreeBayes", "GATK", "bcftools"] [] 4).num_callers :=
  C4_more_than_three ["Bcftools", "FreeBayes", "GATK", "bcftools"] [[1, 0, 0, 0]]
    (CounterOutput.mk ["Bcftools", "FreeBayes", "GATK", "bcftools"] [] 4)
    (by decide) (by decide)

set_option maxRecDepth 8000 in
/-- C5 (counterexample to the claim as stated): on a header with no
recognized caller column the run exits with code 1 and a message that does
enumerate the columns actually found (CHROM, POS both occur in it), but
none of the six recognized caller names of the expected set occurs anywhere
in the message. -/
theorem C5_counterexample :
    runPipeline (Except.ok (["CHROM", "POS"], [])) =
      RunOutcome.exited 1 (insufficientColumnsMessage ["CHROM", "POS"]) ∧
    containsSubstr (insufficientColumnsMessage ["CHROM", "POS"]) "CHROM" = true ∧
    containsSubstr (insufficientColumnsMessage ["CHROM", "POS"]) "POS" = true ∧
    (possible_callers.all (fun c =>
      !(containsSubstr (insufficientColumnsMessage ["CHROM", "POS"]) c))) = true := by decide

/-- C5 (amended): with fewer than 2 recognized caller columns the run
aborts with exit code 1 before producing any counts or image, and the
error message enumerates all columns actually found in the table (each one
occurs in the message); it does not enumerate the expected recognized set,
stating only that at least 2 caller columns were expected. -/
theorem C5_insufficient (cols : List String) (rows : List (List Int))
    (h : (selectCallers cols).length < 2) :
    runPipeline (Except.ok (cols, rows)) =
      RunOutcome.exited 1 (insufficientColumnsMessage cols) ∧
    (cols.all (fun c => containsSubstr (insufficientColumnsMessage cols) c)) = true := by
  constructor
  · simp [runPipeline, read_tsv_insufficient cols rows h]
  · refine List.all_eq_true.mpr (fun c hc => ?_)
    exact decide_eq_true (infix_of_mem_message c cols hc)

/-- C5 witness: the amended abort behaviour on the CHROM, POS header. -/
theorem C5_insufficient_witness :
    runPipeline (Except.ok (["CHROM", "POS"], [])) =
      RunOutcome.exited 1 (insufficientColumnsMessage ["CHROM", "POS"]) ∧
    ((["CHROM", "POS"] : List String).all (fun c =>
      containsSubstr (insufficientColumnsMessage ["CHROM", "POS"]) c)) = true :=
  C5_insufficient ["CHROM", "POS"] [] (by decide)

/-- C6: whenever the table read fails with exception text e, the run exits
with code 1 (no counter output, no renderer call) and the stderr message
contains the underlying failure text e. -/
theorem C6_read_error (e : String) :
    runPipeline (Except.error e) = RunOutcome.exited 1 (readErrorMessage e) ∧
    containsSubstr (readErrorMessage e) e = true := by
  refine ⟨rfl, decide_eq_true ?_⟩
  show e.toList <:+: (readErrorMessage e).toList
  refine ⟨"Error reading TSV file: ".toList, [], ?_⟩
  simp [readErrorMessage, String.toList, String.data_append]

/-- C6 witness: the read-error abort evaluated on a concrete exception
text. -/
theorem C6_read_error_witness :
    runPipeline (Except.error "No such file or directory") =
      RunOutcome.exited 1 (readErrorMessage "No such file or directory") ∧
    containsSubstr (readErrorMessage "No such file or directory")
      "No such file or directory" = true :=
  C6_read_error "No such file or directory"

/-- C7: on a table with exactly 3 recognized caller columns whose rows all
carry flags (0,0,0), every one of the 7 bucket counts is 0 and the pipeline
still reaches the renderer (no abort), invoking venn3 with the all-zero
subsets tuple. -/
theorem C7_all_zero (columns : List String) (rows : List (List Int)) (out : CounterOutput)
    (hsel3 : (selectCallers columns).length = 3)
    (hz : rows.all (isAllZeroRow columns) = true)
    (hok : read_tsv_and_count_variants columns rows = Except.ok out) :
    out.counts = zeroCounts3 ∧
      create_venn_diagram out = RendererRequest.venn3 (0, 0, 0, 0, 0, 0, 0) none ∧
      runPipeline (Except.ok (columns, rows)) =
        RunOutcome.rendered out (RendererRequest.venn3 (0, 0, 0, 0, 0, 0, 0) none) := by
  obtain ⟨c1, c2, c3, hsel⟩ := List.length_eq_three.mp hsel3
  rw [read_tsv_three columns rows c1 c2 c3 hsel] at hok
  obtain rfl : out = ⟨[c1, c2, c3], counts3 columns rows c1 c2 c3, 3⟩ := by cases hok; rfl
  have hcz := counts3_all_zero columns rows c1 c2 c3 hsel hz
  refine ⟨hcz, ?_, ?_⟩
  · show create_venn_diagram _ = _
    simp only [create_venn_diagram, hcz]
    rfl
  · simp only [runPipeline, read_tsv_three columns rows c1 c2 c3 hsel]
    simp only [create_venn_diagram, hcz]
    rfl

/-- C7 witness: the all-zero three-caller behaviour on a concrete two-row
all-zero table. -/
theorem C7_all_zero_witness :
    (CounterOutput.mk ["Bcftools", "FreeBayes", "GATK"] zeroCounts3 3).counts = zeroCounts3 ∧
    create_venn_diagram (CounterOutput.mk ["Bcftools", "FreeBayes", "GATK"] zeroCounts3 3) =
      RendererRequest.venn3 (0, 0, 0, 0, 0, 0, 0) none ∧
    runPipeline (Except.ok (["Bcftools", "FreeBayes", "GATK"], [[0, 0, 0], [0, 0, 0]])) =
      RunOutcome.rendered (CounterOutput.mk ["Bcftools", "FreeBayes", "GATK"] zeroCounts3 3)
        (RendererRequest.venn3 (0, 0, 0, 0, 0, 0, 0) none) :=
  C7_all_zero ["Bcftools", "FreeBayes", "GATK"] [[0, 0, 0], [0, 0, 0]]
    (CounterOutput.mk ["Bcftools", "FreeBayes", "GATK"] zeroCounts3 3)
    (by decide) (by decide) (by decide)

/-- C8: the counter and the whole pipeline are pure functions of the file
contents, so two runs on the same unmodified contents yield identical
caller names, caller order and combination counts. -/
theorem C8_deterministic :
    (∀ input : Except String (List String × List (List Int)),
      runPipeline input = runPipeline input) ∧
    (∀ (columns : List String) (rows : List (List Int)),
      read_tsv_and_count_variants columns rows = read_tsv_and_count_variants columns rows) :=
  ⟨fun _ => rfl, fun _ _ => rfl⟩

/-- C9 (code bug evidence): for every three-caller dataset the venn3 call
carries normalize_to = none, even though computeNormalizeTo yields the
region rescale hint on the concrete imbalanced table (bucket 100 ↦ 12
exceeds 10 times the smallest non-zero bucket 111 ↦ 1): the computed hint
is dropped instead of being passed to the renderer. -/
theorem C9_normalize_hint_dropped :
    (∀ data : CounterOutput, data.num_callers = 3 →
      create_venn_diagram data = RendererRequest.venn3
        (lookupCount data.counts "100", lookupCount data.counts "010",
         lookupCount data.counts "110", lookupCount data.counts "001",
         lookupCount data.counts "101", lookupCount data.counts "011",
         lookupCount data.counts "111") none) ∧
    read_tsv_and_count_variants ["Bcftools", "FreeBayes", "GATK"]
        (List.replicate 12 [1, 0, 0] ++ [[1, 1, 1]]) =
      Except.ok ⟨["Bcftools", "FreeBayes", "GATK"],
        [("100", 12), ("010", 0), ("001", 0), ("110", 0), ("101", 0), ("011", 0),
         ("111", 1)], 3⟩ ∧
    computeNormalizeTo 3
        [("100", 12), ("010", 0), ("001", 0), ("110", 0), ("101", 0), ("011", 0),
         ("111", 1)] = some "region" ∧
    create_venn_diagram ⟨["Bcftools", "FreeBayes", "GATK"],
        [("100", 12), ("010", 0), ("001", 0), ("110", 0), ("101", 0), ("011", 0),
         ("111", 1)], 3⟩ =
      RendererRequest.venn3 (12, 0, 0, 0, 0, 0, 1) none := by
  refine ⟨fun data h3 => ?_, by decide, by decide, by decide⟩
  simp [create_venn_diagram, h3]

/-- C10: a row holding, in some selected caller column, a value that is
neither 0 nor 1 satisfies no bucket predicate, and appending such a row to
a table leaves every combination count unchanged: the row is silently
dropped like an all-zero row. -/
theorem C10_invalid_value_dropped (columns : List String) (rows : List (List Int))
    (r : List Int) (c : String) (hc : c ∈ selectCallers columns)
    (h0 : cellEq columns r c 0 = false) (h1 : cellEq columns r c 1 = false) :
    bucketsHit columns r = 0 ∧
      (read_tsv_and_count_variants columns (rows ++ [r])).map CounterOutput.counts =
        (read_tsv_and_count_variants columns rows).map CounterOutput.counts := by
  rcases hsel : selectCallers columns with _ | ⟨c1, _ | ⟨c2, _ | ⟨c3, _ | ⟨c4, rest⟩⟩⟩⟩
  · rw [hsel] at hc; simp at hc
  · constructor
    · simp [bucketsHit, hsel]
    · simp [read_tsv_and_count_variants, hsel, Except.map]
  · rw [hsel] at hc
    have hc' : c = c1 ∨ c = c2 := by simpa using hc
    constructor
    · rcases hc' with rfl | rfl <;>
        simp [bucketsHit, hsel, bucketPreds2, p2, h0, h1, List.filter_cons]
    · rw [read_tsv_two columns (rows ++ [r]) c1 c2 hsel,
        read_tsv_two columns rows c1 c2 hsel]
      simp only [Except.map]
      rcases hc' with rfl | rfl <;>
        simp [counts2, List.filter_append, p2, h0, h1]
  · rw [hsel] at hc
    have hc' : c = c1 ∨ c = c2 ∨ c = c3 := by simpa using hc
    constructor
    · rcases hc' with rfl | rfl | rfl <;>
        simp [bucketsHit, hsel, bucketPreds3, p3, h0, h1, List.filter_cons]
    · rw [read_tsv_three columns (rows ++ [r]) c1 c2 c3 hsel,
        read_tsv_three columns rows c1 c2 c3 hsel]
      simp only [Except.map]
      rcases hc' with rfl | rfl | rfl <;>
        simp [counts3, List.filter_append, p3, h0, h1]
  · constructor
    · simp [bucketsHit, hsel]
    · have hlen : ¬((c1 :: c2 :: c3 :: c4 :: rest).length < 2) := by
        simp only [List.length_cons]; omega
      have hl2 : ¬((c1 :: c2 :: c3 :: c4 :: rest).length = 2) := by
        simp only [List.length_cons]; omega
      have hl3 : ¬((c1 :: c2 :: c3 :: c4 :: rest).length = 3) := by
        simp only [List.length_cons]; omega
      simp [read_tsv_and_count_variants, hsel, hlen, hl2, hl3, Except.map]

/-- C10 witness: the row (2,1), whose first selected flag is out of range,
hits no bucket and leaves the counts of a concrete one-row table unchanged
when appended. -/
theorem C10_invalid_value_dropped_witness :
    bucketsHit ["Bcftools", "FreeBayes"] [2, 1] = 0 ∧
      (read_tsv_and_count_variants ["Bcftools", "FreeBayes"]
          ([[1, 0]] ++ [[2, 1]])).map CounterOutput.counts =
        (read_tsv_and_count_variants ["Bcftools", "FreeBayes"]
          [[1, 0]]).map CounterOutput.counts :=
  C10_invalid_value_dropped ["Bcftools", "FreeBayes"] [[1, 0]] [2, 1] "Bcftools"
    (by decide) (by decide) (by decide)

end VcfVenn
